import Mathlib

/-!
Verification of the surplus-food marketplace backend (`main.py`, `schemas.py`):
a shallow embedding of the offer catalog and the reservation service, with the
document store modelled as explicit in-memory collections.

`database.py` is imported by `main.py` but is not part of the sources at hand;
its two operations (`create_document`, `get_documents`) are modelled from the
spec of the Document Store Adapter (§4.3).
-/

namespace MbaroMire

/-- A stored offer document (collection `offer`): the fields of the pydantic
`Offer` model of `schemas.py` plus the store id `_id` (here `oid`) and the
`updated_at` field written by `reserve`'s `update_one`. Prices are `float` in
the source; modelled as `Rat` (the only operation on them is comparison).
Timestamps are opaque; modelled as `Int`. -/
structure OfferDoc where
  oid : String
  title : String
  description : Option String
  vendor_name : String
  city : String
  address : Option String
  cuisine : Option String
  tags : List String
  original_price : Rat
  price : Rat
  quantity : Int
  pickup_start : Int
  pickup_end : Int
  image_url : Option String
  active : Bool
  updated_at : Option Int
deriving DecidableEq

/-- A stored reservation document (collection `reservation`): the fields of the
pydantic `Reservation` model of `schemas.py` plus the store id. -/
structure ReservationDoc where
  rid : String
  offer_id : String
  customer_name : String
  customer_phone : String
  quantity : Int
  status : String
deriving DecidableEq

/-- The persistent state: the two collections touched by the handlers under
verification. -/
structure Store where
  offers : List OfferDoc
  reservations : List ReservationDoc
deriving DecidableEq

/-- Outcomes a handler can raise. `http` is a `fastapi.HTTPException` with its
status code and detail string; the other constructors are exceptions that
escape the handler unhandled: `pydanticValidation` is a pydantic
`ValidationError` (the `ge=1` bound of `Reservation.quantity`),
`invalidObjectId` is `bson.errors.InvalidId` from `ObjectId(...)`, and
`storeUnavailable` models a store failure mid-request. -/
inductive Err where
  | http (status : Nat) (detail : String)
  | pydanticValidation
  | invalidObjectId
  | storeUnavailable
deriving DecidableEq

instance {ε α : Type} [DecidableEq ε] [DecidableEq α] :
    DecidableEq (Except ε α) := fun x y =>
  match x, y with
  | .ok a, .ok b =>
    if h : a = b then isTrue (by rw [h]) else isFalse (by simp [h])
  | .error a, .error b =>
    if h : a = b then isTrue (by rw [h]) else isFalse (by simp [h])
  | .ok _, .error _ => isFalse (by simp)
  | .error _, .ok _ => isFalse (by simp)

def isHexChar (c : Char) : Bool :=
  ('0' ≤ c && c ≤ '9') || ('a' ≤ c && c ≤ 'f') || ('A' ≤ c && c ≤ 'F')

/-- `bson.ObjectId(s)` on a string argument succeeds exactly when `s` is a
24-character hexadecimal string; otherwise it raises `InvalidId`. -/
def isValidObjectId (s : String) : Bool :=
  s.length == 24 && s.toList.all isHexChar

/-- `db["offer"].find_one({"_id": ObjectId(oid)})`: the first stored offer
document with the given id, if any. -/
def findOneOffer (st : Store) (oid : String) : Option OfferDoc :=
  st.offers.find? (fun d => d.oid == oid)

/-- Modelled from the spec: `insert(collectionName, document) -> id` (§4.3).
`create_document` lives in `database.py` (absent from the sources): it inserts
one document into the named collection and returns a fresh id. Specialised to
the `reservation` collection; the fresh id is derived from the collection
size. -/
def create_document_reservation (st : Store) (r : ReservationDoc) :
    Store × String :=
  let rid := "res" ++ toString st.reservations.length
  ({ st with reservations := st.reservations ++ [{ r with rid := rid }] }, rid)

/-- Modelled from the spec: `insert(collectionName, document) -> id` (§4.3),
specialised to the `offer` collection. -/
def create_document_offer (st : Store) (d : OfferDoc) : Store × String :=
  let oid := "off" ++ toString st.offers.length
  ({ st with offers := st.offers ++ [{ d with oid := oid }] }, oid)

/-- Constructing the pydantic `Reservation` model of `schemas.py`:
`quantity: int = Field(1, ge=1)`, so a quantity below 1 raises a
`ValidationError`. The store id is assigned later, at insertion. -/
def mkReservation (offer_id customer_name customer_phone : String)
    (quantity : Int) (status : String) : Except Err ReservationDoc :=
  if quantity < 1 then .error .pydanticValidation
  else .ok { rid := "", offer_id := offer_id, customer_name := customer_name,
             customer_phone := customer_phone, quantity := quantity,
             status := status }

/-- `db["offer"].update_one({"_id": ObjectId(oid)}, {"$inc": {"quantity": -q},
"$set": {"updated_at": now}})`: decrement the quantity of the first document
matching the id (MongoDB `update_one` touches at most one document) and stamp
`updated_at`. The `$inc` is unconditional: it applies whatever the current
quantity is. -/
def incFirst (oid : String) (q now : Int) : List OfferDoc → List OfferDoc
  | [] => []
  | d :: ds =>
    if d.oid == oid then
      { d with quantity := d.quantity - q, updated_at := some now } :: ds
    else d :: incFirst oid q now ds

def updateOneOfferDec (st : Store) (oid : String) (q now : Int) : Store :=
  { st with offers := incFirst oid q now st.offers }

/-- Request body of `POST /api/reservations` (`ReservationIn` in `main.py`):
`quantity : int = 1` with no lower bound. -/
structure ReservationIn where
  offer_id : String
  customer_name : String
  customer_phone : String
  quantity : Int
deriving DecidableEq

/-- The `reserve` handler (`POST /api/reservations`). The database is assumed
configured (`db is not None`). Branches, in source order: `ObjectId` parsing of
`res.offer_id` (raises `InvalidId` on a malformed id), `find_one` lookup (404
if absent), the quantity check (400 if `offer.quantity < res.quantity`),
construction of the `Reservation` model (pydantic `ge=1`), `create_document`
of the reservation, then the unconditional `update_one` decrement.
`updateFails` injects a `StoreUnavailableError` at the `update_one` call: the
reservation insert has already been persisted when it is raised. -/
def reserve (updateFails : Bool) (res : ReservationIn) (now : Int)
    (st : Store) : Store × Except Err String :=
  if isValidObjectId res.offer_id then
    match findOneOffer st res.offer_id with
    | none => (st, .error (.http 404 "Offer not found"))
    | some offer =>
      if offer.quantity < res.quantity then
        (st, .error (.http 400 "Not enough quantity"))
      else
        match mkReservation res.offer_id res.customer_name res.customer_phone
            res.quantity "reserved" with
        | .error e => (st, .error e)
        | .ok r =>
          let p := create_document_reservation st r
          if updateFails then (p.1, .error .storeUnavailable)
          else (updateOneOfferDec p.1 res.offer_id res.quantity now, .ok p.2)
  else (st, .error .invalidObjectId)

/-- Request body of `POST /api/offers`: the pydantic `Offer` model of
`schemas.py` (no store id yet, no `updated_at`). -/
structure OfferIn where
  title : String
  description : Option String
  vendor_name : String
  city : String
  address : Option String
  cuisine : Option String
  tags : List String
  original_price : Rat
  price : Rat
  quantity : Int
  pickup_start : Int
  pickup_end : Int
  image_url : Option String
  active : Bool
deriving DecidableEq

def OfferIn.toDoc (o : OfferIn) : OfferDoc :=
  { oid := "", title := o.title, description := o.description,
    vendor_name := o.vendor_name, city := o.city, address := o.address,
    cuisine := o.cuisine, tags := o.tags, original_price := o.original_price,
    price := o.price, quantity := o.quantity, pickup_start := o.pickup_start,
    pickup_end := o.pickup_end, image_url := o.image_url, active := o.active,
    updated_at := none }

/-- The `create_offer` handler (`POST /api/offers`). `required_code` is
`os.getenv("ADMIN_CODE", "admin123")`; the guard
`if required_code and admin_code != required_code` is Python truthiness: the
401 fires when `required_code` is non-empty and the query parameter differs
from it. Only then is the price ordering checked (400), and only then is the
document inserted. -/
def create_offer (offer : OfferIn) (admin_code : Option String)
    (required_code : String) (st : Store) : Store × Except Err String :=
  if required_code != "" && admin_code != some required_code then
    (st, .error (.http 401 "Invalid admin code"))
  else if offer.price > offer.original_price then
    (st, .error (.http 400 "Price must be <= original price"))
  else
    let p := create_document_offer st offer.toDoc
    (p.1, .ok p.2)

/-- Case-insensitive containment: the meaning of the MongoDB filter
`{"$regex": q, "$options": "i"}` for a pattern without metacharacters. -/
def containsCI (pat s : String) : Bool :=
  go (pat.toList.map Char.toLower) (s.toList.map Char.toLower)
where
  go (p : List Char) : List Char → Bool
    | [] => p.isEmpty
    | c :: rest => p.isPrefixOf (c :: rest) || go p rest

/-- The filter document built by `list_offers`: always
`{"active": True, "quantity": {"$gt": 0}}`; `city` and `cuisine` equality
clauses are added only when the query parameter is truthy (present and
non-empty), and `q` adds an `$or` of case-insensitive matches over title,
vendor name, and any tag. -/
def matchesOfferFilt (city cuisine q : Option String) (d : OfferDoc) : Bool :=
  d.active && (0 < d.quantity) &&
  (match city with
   | none => true
   | some c => c == "" || d.city == c) &&
  (match cuisine with
   | none => true
   | some c => c == "" || d.cuisine == some c) &&
  (match q with
   | none => true
   | some qs =>
     qs == "" || containsCI qs d.title || containsCI qs d.vendor_name ||
       d.tags.any (fun t => containsCI qs t))

/-- Modelled from the spec: `find(collectionName, filter, limit) -> sequence
of documents` (§4.3). `get_documents` lives in `database.py` (absent from the
sources): it returns at most `limit` documents of the collection satisfying
the filter, in store-native order. -/
def get_documents_offer (st : Store) (pred : OfferDoc → Bool) (limit : Nat) :
    List OfferDoc :=
  (st.offers.filter pred).take limit

/-- The `list_offers` handler (`GET /api/offers`): builds the filter from the
optional query parameters and fetches at most 100 matching offer documents. -/
def list_offers (city cuisine q : Option String) (st : Store) :
    List OfferDoc :=
  get_documents_offer st (matchesOfferFilt city cuisine q) 100

/-- The `get_offer` handler (`GET /api/offers/{offer_id}`). The database is
assumed configured. `ObjectId(offer_id)` raises `InvalidId` on a malformed id;
otherwise `find_one` looks the document up by `_id` alone, and a missing
document yields a 404. -/
def get_offer (offer_id : String) (st : Store) : Except Err OfferDoc :=
  if isValidObjectId offer_id then
    match findOneOffer st offer_id with
    | none => .error (.http 404 "Offer not found")
    | some d => .ok d
  else .error .invalidObjectId

/-! ### Interleaved executions of `reserve`

The handler is split at its store interactions: the `find_one` lookup together
with the in-process checks (quantity check, pydantic construction), then the
`create_document` insert, then the `update_one` decrement. Concurrent request
handlers interleave at exactly these boundaries; a schedule picks which
in-flight request performs its next store interaction. -/

inductive Phase where
  | lookupAndValidate
  | insertReservation
  | updateOffer
  | done (ok : Bool)
deriving DecidableEq

structure Task where
  req : ReservationIn
  phase : Phase
deriving DecidableEq

structure ConcState where
  store : Store
  tasks : List Task
deriving DecidableEq

/-- Advance task `i` by one store interaction, following the code of
`reserve`. A finished or out-of-range task leaves the state unchanged. -/
def stepTask (now : Int) (cs : ConcState) (i : Nat) : ConcState :=
  match cs.tasks[i]? with
  | none => cs
  | some t =>
    match t.phase with
    | .lookupAndValidate =>
      let next : Phase :=
        if isValidObjectId t.req.offer_id then
          match findOneOffer cs.store t.req.offer_id with
          | none => .done false
          | some offer =>
            if offer.quantity < t.req.quantity then .done false
            else if t.req.quantity < 1 then .done false
            else .insertReservation
        else .done false
      { cs with tasks := cs.tasks.set i { t with phase := next } }
    | .insertReservation =>
      let r : ReservationDoc :=
        { rid := "", offer_id := t.req.offer_id,
          customer_name := t.req.customer_name,
          customer_phone := t.req.customer_phone,
          quantity := t.req.quantity, status := "reserved" }
      { store := (create_document_reservation cs.store r).1,
        tasks := cs.tasks.set i { t with phase := .updateOffer } }
    | .updateOffer =>
      { store := updateOneOfferDec cs.store t.req.offer_id t.req.quantity now,
        tasks := cs.tasks.set i { t with phase := .done true } }
    | .done _ => cs

/-- Run the interleaved semantics under a schedule (the list of task indices,
in the order their store interactions hit the store). -/
def runSchedule (now : Int) : ConcState → List Nat → ConcState
  | cs, [] => cs
  | cs, i :: rest => runSchedule now (stepTask now cs i) rest

/-! ### Sequential executions and the conservation invariant -/

/-- Process a sequence of reservation requests one after the other (each
handler runs to completion before the next starts), keeping the store
whatever the outcome of each attempt. -/
def runReserves (now : Int) : List ReservationIn → Store → Store
  | [], st => st
  | r :: rs, st => runReserves now rs (reserve false r now st).1

/-- Total quantity of the non-cancelled reservations referencing an offer. -/
def reservedSum (resvs : List ReservationDoc) (oid : String) : Int :=
  ((resvs.filter
      (fun r => r.offer_id == oid && r.status != "cancelled")).map
    (fun r => r.quantity)).sum

/-- The spec's §3 invariant, relative to a map `init` giving each offer id the
offer's quantity at creation time: every stored offer has non-negative
quantity, and the non-cancelled reserved total against it plus its remaining
quantity equals its creation-time quantity. -/
def goodState (init : String → Int) (st : Store) : Prop :=
  ∀ d ∈ st.offers, 0 ≤ d.quantity ∧
    reservedSum st.reservations d.oid + d.quantity = init d.oid

instance (init : String → Int) (st : Store) : Decidable (goodState init st) :=
  List.decidableBAll _ st.offers

/-! ### Concrete fixtures -/

def hex24const : String := "0123456789abcdef01234567"

def sampleOffer : OfferDoc :=
  { oid := hex24const, title := "Surprise Bag", description := none,
    vendor_name := "Bakery", city := "Tirana", address := none,
    cuisine := some "bakery", tags := ["vegan"], original_price := 10,
    price := 4, quantity := 5, pickup_start := 0, pickup_end := 1,
    image_url := none, active := true, updated_at := none }

def sampleStore : Store := { offers := [sampleOffer], reservations := [] }

def sampleReq (q : Int) : ReservationIn :=
  { offer_id := hex24const, customer_name := "Ana",
    customer_phone := "355000000", quantity := q }

/-! ### Helper lemmas -/

theorem reservedSum_append (l : List ReservationDoc) (r : ReservationDoc)
    (x : String) :
    reservedSum (l ++ [r]) x =
      reservedSum l x +
        (if r.offer_id == x && r.status != "cancelled" then r.quantity
         else 0) := by
  by_cases h : (r.offer_id == x && r.status != "cancelled") = true <;>
    simp [reservedSum, List.filter_append, h]

theorem incFirst_map_oid (oid : String) (q now : Int) (l : List OfferDoc) :
    (incFirst oid q now l).map (fun e => e.oid) = l.map (fun e => e.oid) := by
  induction l with
  | nil => rfl
  | cons e tl ih =>
    by_cases he : (e.oid == oid) = true <;> simp [incFirst, he, ih]

theorem incFirst_mem {l : List OfferDoc} {oid : String} {q now : Int}
    {d0 d : OfferDoc}
    (hfind : l.find? (fun e => e.oid == oid) = some d0)
    (hnd : (l.map (fun e => e.oid)).Nodup)
    (hd : d ∈ incFirst oid q now l) :
    (d ∈ l ∧ d.oid ≠ oid) ∨
      d = { d0 with quantity := d0.quantity - q, updated_at := some now } := by
  induction l with
  | nil => simp [incFirst] at hd
  | cons e tl ih =>
    rw [List.find?_cons] at hfind
    by_cases he : (e.oid == oid) = true
    · rw [he] at hfind
      have he2 : e.oid = oid := by simpa using he
      have hd0 : e = d0 := by simpa using hfind
      rw [incFirst, if_pos he] at hd
      rcases List.mem_cons.mp hd with h | h
      · right; rw [h, hd0]
      · left
        refine ⟨List.mem_cons_of_mem _ h, ?_⟩
        have hnotin : e.oid ∉ tl.map (fun e => e.oid) :=
          (List.nodup_cons.mp (by simpa using hnd)).1
        intro hdo
        exact hnotin (by rw [he2, ← hdo]; exact List.mem_map_of_mem _ h)
    · have he' : (e.oid == oid) = false := by simpa using he
      rw [he'] at hfind
      rw [incFirst, if_neg he] at hd
      rcases List.mem_cons.mp hd with h | h
      · left
        exact ⟨by rw [h]; exact List.mem_cons_self _ _,
          by rw [h]; simpa using he⟩
      · have hnd2 : (tl.map (fun e => e.oid)).Nodup :=
          (List.nodup_cons.mp (by simpa using hnd)).2
        rcases ih hfind hnd2 h with ⟨h1, h2⟩ | h1
        · exact Or.inl ⟨List.mem_cons_of_mem _ h1, h2⟩
        · exact Or.inr h1

/-- Committing a reservation the way the success branch of `reserve` does —
append the reservation document and decrement the first matching offer —
preserves the conservation invariant, provided the requested quantity does not
exceed the found offer's quantity. -/
theorem goodState_commit (init : String → Int) (st : Store) (d0 : OfferDoc)
    (rr : ReservationDoc) (now : Int)
    (hnd : (st.offers.map (fun d => d.oid)).Nodup)
    (hg : goodState init st)
    (hfind : st.offers.find? (fun d => d.oid == rr.offer_id) = some d0)
    (hq : rr.quantity ≤ d0.quantity)
    (hst : rr.status ≠ "cancelled") :
    goodState init
      ⟨incFirst rr.offer_id rr.quantity now st.offers,
       st.reservations ++ [rr]⟩ := by
  intro d hd
  dsimp only at hd ⊢
  rw [reservedSum_append]
  rcases incFirst_mem hfind hnd hd with ⟨hdl, hne⟩ | rfl
  · obtain ⟨h0, hsum⟩ := hg d hdl
    have hb : (rr.offer_id == d.oid) = false := by
      simp only [beq_eq_false_iff_ne]
      exact fun h => hne h.symm
    simp [hb, h0, hsum]
  · have hmem := List.mem_of_find?_eq_some hfind
    have hbeq := List.find?_some hfind
    have hoid : d0.oid = rr.offer_id := by simpa using hbeq
    obtain ⟨h0, hsum⟩ := hg d0 hmem
    have hs : (rr.status != "cancelled") = true := by simpa using hst
    dsimp only
    rw [hoid] at hsum
    rw [hoid]
    have hcond :
        (rr.offer_id == rr.offer_id && rr.status != "cancelled") = true := by
      simp [hs]
    rw [if_pos hcond]
    constructor
    · omega
    · omega

/-! Branch-shape lemmas for `reserve`, one per exit path of the handler. -/

theorem reserve_invalid_eq (u : Bool) (res : ReservationIn) (now : Int)
    (st : Store) (h1 : isValidObjectId res.offer_id = false) :
    reserve u res now st = (st, .error .invalidObjectId) := by
  rw [reserve, if_neg (by simp [h1])]

theorem reserve_notFound_eq (u : Bool) (res : ReservationIn) (now : Int)
    (st : Store) (h1 : isValidObjectId res.offer_id = true)
    (hf : findOneOffer st res.offer_id = none) :
    reserve u res now st = (st, .error (.http 404 "Offer not found")) := by
  rw [reserve, if_pos h1, hf]

theorem reserve_insufficient_eq (u : Bool) (res : ReservationIn) (now : Int)
    (st : Store) (d0 : OfferDoc) (h1 : isValidObjectId res.offer_id = true)
    (hf : findOneOffer st res.offer_id = some d0)
    (h3 : d0.quantity < res.quantity) :
    reserve u res now st = (st, .error (.http 400 "Not enough quantity")) := by
  rw [reserve, if_pos h1, hf]
  dsimp only
  rw [if_pos h3]

theorem reserve_pydantic_eq (u : Bool) (res : ReservationIn) (now : Int)
    (st : Store) (d0 : OfferDoc) (h1 : isValidObjectId res.offer_id = true)
    (hf : findOneOffer st res.offer_id = some d0)
    (h3 : ¬ d0.quantity < res.quantity) (h4 : res.quantity < 1) :
    reserve u res now st = (st, .error .pydanticValidation) := by
  rw [reserve, if_pos h1, hf]
  dsimp only
  rw [if_neg h3, mkReservation, if_pos h4]

/-- The reservation document the success path of `reserve` persists. -/
def committedDoc (res : ReservationIn) (st : Store) : ReservationDoc :=
  { rid := "res" ++ toString st.reservations.length,
    offer_id := res.offer_id, customer_name := res.customer_name,
    customer_phone := res.customer_phone, quantity := res.quantity,
    status := "reserved" }

theorem reserve_success_eq (res : ReservationIn) (now : Int) (st : Store)
    (d0 : OfferDoc) (h1 : isValidObjectId res.offer_id = true)
    (hf : findOneOffer st res.offer_id = some d0)
    (h3 : ¬ d0.quantity < res.quantity) (h4 : ¬ res.quantity < 1) :
    reserve false res now st =
      (⟨incFirst res.offer_id res.quantity now st.offers,
        st.reservations ++ [committedDoc res st]⟩,
       .ok ("res" ++ toString st.reservations.length)) := by
  rw [reserve, if_pos h1, hf]
  dsimp only
  rw [if_neg h3, mkReservation, if_neg h4]
  rfl

theorem reserve_fault_eq (res : ReservationIn) (now : Int) (st : Store)
    (d0 : OfferDoc) (h1 : isValidObjectId res.offer_id = true)
    (hf : findOneOffer st res.offer_id = some d0)
    (h3 : ¬ d0.quantity < res.quantity) (h4 : ¬ res.quantity < 1) :
    reserve true res now st =
      (⟨st.offers, st.reservations ++ [committedDoc res st]⟩,
       .error .storeUnavailable) := by
  rw [reserve, if_pos h1, hf]
  dsimp only
  rw [if_neg h3, mkReservation, if_neg h4]
  rfl

/-- One completed call of the `reserve` handler preserves the conservation
invariant and leaves the offer ids (hence the offer documents' identities)
unchanged. -/
theorem reserve_preserves_good (init : String → Int) (res : ReservationIn)
    (now : Int) (st : Store)
    (hnd : (st.offers.map (fun d => d.oid)).Nodup)
    (hg : goodState init st) :
    goodState init (reserve false res now st).1 ∧
    ((reserve false res now st).1.offers.map (fun d => d.oid)) =
      st.offers.map (fun d => d.oid) := by
  by_cases h1 : isValidObjectId res.offer_id = true
  · cases hf : findOneOffer st res.offer_id with
    | none => rw [reserve_notFound_eq false res now st h1 hf]; exact ⟨hg, rfl⟩
    | some d0 =>
      by_cases h3 : d0.quantity < res.quantity
      · rw [reserve_insufficient_eq false res now st d0 h1 hf h3]
        exact ⟨hg, rfl⟩
      · by_cases h4 : res.quantity < 1
        · rw [reserve_pydantic_eq false res now st d0 h1 hf h3 h4]
          exact ⟨hg, rfl⟩
        · rw [reserve_success_eq res now st d0 h1 hf h3 h4]
          refine ⟨?_, incFirst_map_oid _ _ _ _⟩
          exact goodState_commit init st d0 (committedDoc res st) now hnd hg
            hf (by simp only [committedDoc]; omega)
            (by simp [committedDoc])
  · rw [reserve_invalid_eq false res now st (by simpa using h1)]
    exact ⟨hg, rfl⟩

/-! ### Further fixtures for the claim theorems -/

def raceInitial : ConcState :=
  { store := sampleStore,
    tasks := [{ req := sampleReq 3, phase := .lookupAndValidate },
              { req := sampleReq 4, phase := .lookupAndValidate }] }

def raceFinal : ConcState := runSchedule 0 raceInitial [0, 1, 0, 1, 0, 1]

def scnStep1 : Store × Except Err String :=
  reserve false (sampleReq 3) 1 sampleStore
def scnStep2 : Store × Except Err String :=
  reserve false (sampleReq 3) 2 scnStep1.1
def scnStep3 : Store × Except Err String :=
  reserve false (sampleReq 2) 3 scnStep2.1

def overpricedOffer : OfferIn :=
  { title := "Surprise Bag", description := none, vendor_name := "Bakery",
    city := "Tirana", address := none, cuisine := none, tags := [],
    original_price := 10, price := 11, quantity := 1, pickup_start := 0,
    pickup_end := 1, image_url := none, active := true }

def inactiveOffer : OfferDoc := { sampleOffer with active := false }

def inactiveStore : Store := { offers := [inactiveOffer], reservations := [] }

/-! ### Claims -/

/-- C1: the spec promises that an offer's quantity never goes negative even
under concurrent reservation attempts against the same offer. The code
violates this: with an offer of quantity 5 and two in-flight requests for 3
and 4 units, the interleaving in which both handlers pass the quantity check
before either commits lets both succeed, and the two unconditional `$inc`
decrements drive the quantity to -2. -/
theorem reserve_race_drives_quantity_negative :
    raceFinal.tasks.map (fun t => t.phase) = [.done true, .done true] ∧
    raceFinal.store.reservations.map (fun r => r.quantity) = [3, 4] ∧
    raceFinal.store.offers.map (fun d => d.quantity) = [-2] := by decide

/-- C2: the spec requires the commit to be atomic, but the code inserts the
reservation with `create_document` before running the `update_one` decrement.
If the store fails at the decrement, the persisted state has the reservation
record without the quantity decrement: a partially-applied reservation. -/
theorem reserve_store_failure_partial_commit :
    (reserve true (sampleReq 3) 1 sampleStore).2 =
      .error .storeUnavailable ∧
    (reserve true (sampleReq 3) 1 sampleStore).1.reservations.map
        (fun r => (r.offer_id, r.quantity, r.status)) =
      [(hex24const, 3, "reserved")] ∧
    (reserve true (sampleReq 3) 1 sampleStore).1.offers.map
        (fun d => d.quantity) = [5] := by decide

/-- C3: whenever the requested quantity strictly exceeds the offer's current
quantity, `reserve` fails with HTTP 400 "Not enough quantity" and the store is
left completely unchanged: no reservation is inserted and no decrement
happens. -/
theorem reserve_insufficient_rejected (res : ReservationIn) (now : Int)
    (st : Store) (d : OfferDoc)
    (hid : isValidObjectId res.offer_id = true)
    (hfind : findOneOffer st res.offer_id = some d)
    (hgt : d.quantity < res.quantity) :
    reserve false res now st =
      (st, .error (.http 400 "Not enough quantity")) :=
  reserve_insufficient_eq false res now st d hid hfind hgt

theorem reserve_insufficient_rejected_witness :
    reserve false (sampleReq 6) 0 sampleStore =
      (sampleStore, .error (.http 400 "Not enough quantity")) :=
  reserve_insufficient_rejected (sampleReq 6) 0 sampleStore sampleOffer
    (by decide) (by decide) (by decide)

/-- C4: over any sequence of sequentially processed reservation attempts, the
conservation invariant holds: every offer keeps a non-negative quantity, and
the sum of the non-cancelled reservation quantities against it plus its
remaining quantity stays equal to its creation-time quantity (the invariant
holds at every intermediate state too, since the requests list is
arbitrary). -/
theorem reserve_conservation (reqs : List ReservationIn)
    (init : String → Int) (now : Int) (st : Store)
    (hnd : (st.offers.map (fun d => d.oid)).Nodup)
    (hg : goodState init st) :
    goodState init (runReserves now reqs st) := by
  induction reqs generalizing st with
  | nil => exact hg
  | cons r rs ih =>
    obtain ⟨hg2, hids⟩ := reserve_preserves_good init r now st hnd hg
    exact ih (reserve false r now st).1 (by rw [hids]; exact hnd) hg2

theorem reserve_conservation_witness :
    goodState (fun _ => 5)
      (runReserves 0 [sampleReq 3, sampleReq 3, sampleReq 2] sampleStore) :=
  reserve_conservation [sampleReq 3, sampleReq 3, sampleReq 2] (fun _ => 5) 0
    sampleStore (by decide) (by decide)

/-- C5: the spec's scenario. Starting from an offer of quantity 5: reserving
3 succeeds and leaves quantity 2 with a reservation of status "reserved";
reserving 3 again fails with HTTP 400 and quantity stays 2; reserving 2 then
succeeds and leaves quantity 0. -/
theorem reserve_scenario_5_3_3_2 :
    scnStep1.2 = .ok "res0" ∧
    scnStep1.1.offers.map (fun d => d.quantity) = [2] ∧
    scnStep1.1.reservations.map (fun r => r.status) = ["reserved"] ∧
    scnStep2.2 = .error (.http 400 "Not enough quantity") ∧
    scnStep2.1.offers.map (fun d => d.quantity) = [2] ∧
    scnStep3.2 = .ok "res1" ∧
    scnStep3.1.offers.map (fun d => d.quantity) = [0] := by decide

/-- C6 counterexample: an offer input with price 11 > original_price 10,
submitted without the admin code, fails with HTTP 401 "Invalid admin code",
not with the HTTP 400 validation error the claim promises for every such
offer input (the store is still left untouched). -/
theorem create_offer_overpriced_admin_mismatch_cex :
    overpricedOffer.price > overpricedOffer.original_price ∧
    create_offer overpricedOffer none "admin123" sampleStore =
      (sampleStore, .error (.http 401 "Invalid admin code")) := by decide

/-- C6 (amended): creating an offer with price > original_price never inserts
a document; it fails with the HTTP 400 validation error when the admin-code
gate passes, and with HTTP 401 (before the price check) when it does not. -/
theorem create_offer_overpriced_no_insert (offer : OfferIn)
    (ac : Option String) (rc : String) (st : Store)
    (hprice : offer.price > offer.original_price) :
    create_offer offer ac rc st =
      (st, .error
        (if rc != "" && ac != some rc then Err.http 401 "Invalid admin code"
         else .http 400 "Price must be <= original price")) := by
  cases h : (rc != "" && ac != some rc) <;>
    simp [create_offer, h, hprice]

theorem create_offer_overpriced_no_insert_witness :
    create_offer overpricedOffer (some "admin123") "admin123" sampleStore =
      (sampleStore, .error
        (if ("admin123" : String) != "" &&
            (some "admin123" : Option String) != some "admin123" then
          Err.http 401 "Invalid admin code"
         else .http 400 "Price must be <= original price")) :=
  create_offer_overpriced_no_insert overpricedOffer (some "admin123")
    "admin123" sampleStore (by decide)

/-- C7: whatever the optional filters, every offer returned by `list_offers`
has active = true and quantity > 0; in particular an offer with quantity 0
never appears in a result even though its document is still stored. -/
theorem list_offers_only_active_positive (city cuisine q : Option String)
    (st : Store) (d : OfferDoc)
    (hd : d ∈ list_offers city cuisine q st) :
    d.active = true ∧ 0 < d.quantity := by
  have hd2 : d ∈ st.offers.filter (matchesOfferFilt city cuisine q) :=
    List.take_subset _ _ hd
  have hp := (List.mem_filter.mp hd2).2
  simp only [matchesOfferFilt, Bool.and_eq_true, decide_eq_true_eq] at hp
  exact ⟨hp.1.1.1.1, hp.1.1.1.2⟩

theorem list_offers_only_active_positive_witness :
    sampleOffer.active = true ∧ 0 < sampleOffer.quantity :=
  list_offers_only_active_positive (some "Tirana") (some "bakery")
    (some "VEG") sampleStore sampleOffer (by decide)

/-- C8 counterexample: `get_offer` looks the document up by id alone, so an
existing offer with active = false is returned as a success, not rejected
with the 404 the claim promises. -/
theorem get_offer_returns_inactive_cex :
    inactiveOffer.active = false ∧
    get_offer hex24const inactiveStore = .ok inactiveOffer := by decide

/-- C8 (amended): for a well-formed id, `get_offer` yields the 404 error
exactly when no offer with that id exists, and returns any stored offer with
that id as-is — the active flag is never consulted. -/
theorem get_offer_ignores_active (offer_id : String) (st : Store)
    (d : OfferDoc) (hid : isValidObjectId offer_id = true) :
    (findOneOffer st offer_id = none ↔
      get_offer offer_id st = .error (.http 404 "Offer not found")) ∧
    (findOneOffer st offer_id = some d → get_offer offer_id st = .ok d) := by
  rw [get_offer, if_pos hid]
  cases hf : findOneOffer st offer_id with
  | none => simp
  | some e =>
    refine ⟨by simp, fun h => ?_⟩
    have : e = d := by simpa using h
    rw [this]

theorem get_offer_ignores_active_witness :
    (findOneOffer inactiveStore hex24const = none ↔
      get_offer hex24const inactiveStore =
        .error (.http 404 "Offer not found")) ∧
    (findOneOffer inactiveStore hex24const = some inactiveOffer →
      get_offer hex24const inactiveStore = .ok inactiveOffer) :=
  get_offer_ignores_active hex24const inactiveStore inactiveOffer (by decide)

/-- C9: the public input model has no lower bound on the quantity, so a
request for a non-positive quantity against an existing offer (with the
non-negative quantity the schema guarantees) passes the insufficiency check,
then fails the ge=1 validation of the stored `Reservation` model: the handler
errors with the unhandled pydantic validation error, not the 400
"Not enough quantity", and the store is left unchanged. -/
theorem reserve_nonpositive_unhandled (res : ReservationIn) (now : Int)
    (st : Store) (d : OfferDoc)
    (hid : isValidObjectId res.offer_id = true)
    (hfind : findOneOffer st res.offer_id = some d)
    (hq : 0 ≤ d.quantity) (hreq : res.quantity ≤ 0) :
    reserve false res now st = (st, .error .pydanticValidation) :=
  reserve_pydantic_eq false res now st d hid hfind (by omega) (by omega)

theorem reserve_nonpositive_unhandled_witness :
    reserve false (sampleReq 0) 0 sampleStore =
      (sampleStore, .error .pydanticValidation) :=
  reserve_nonpositive_unhandled (sampleReq 0) 0 sampleStore sampleOffer
    (by decide) (by decide) (by decide) (by decide)

/-- C10: for an id that is not a well-formed 24-character-hex object id, both
`get_offer` and `reserve` fail with the unhandled `InvalidId` parsing
exception — which is not the 404 absent-entity error — and the store is
untouched. -/
theorem malformed_id_unhandled (res : ReservationIn) (now : Int) (st : Store)
    (hid : isValidObjectId res.offer_id = false) :
    get_offer res.offer_id st = .error .invalidObjectId ∧
    reserve false res now st = (st, .error .invalidObjectId) ∧
    Err.invalidObjectId ≠ .http 404 "Offer not found" := by
  refine ⟨?_, reserve_invalid_eq false res now st hid, by decide⟩
  rw [get_offer, if_neg (by simp [hid])]

theorem malformed_id_unhandled_witness :
    get_offer "not-an-objectid" sampleStore = .error .invalidObjectId ∧
    reserve false
        { offer_id := "not-an-objectid", customer_name := "Ana",
          customer_phone := "355000000", quantity := 1 } 0 sampleStore =
      (sampleStore, .error .invalidObjectId) ∧
    Err.invalidObjectId ≠ .http 404 "Offer not found" :=
  malformed_id_unhandled
    { offer_id := "not-an-objectid", customer_name := "Ana",
      customer_phone := "355000000", quantity := 1 } 0 sampleStore (by decide)

end MbaroMire
